import Mathlib

/-!
Verification of `dbhelper/db.py`: a `Database` wrapper around a psycopg2
`SimpleConnectionPool`, and a `DatabaseCursor` context manager that borrows a
connection for one unit of work.

The embedding mirrors the Python source:
* Python exceptions become the `PyErr` inductive; a fallible operation returns
  `Except PyErr α × State` (the state component records mutations that survive
  a raise, as Python objects do).
* The external driver (psycopg2's `AbstractConnectionPool` via
  `SimpleConnectionPool`) is modelled from its published implementation:
  `getconn`, `putconn`, `closeall` and eager creation of `minconn` connections
  at construction. `psycopg2.connect` itself is modelled as always succeeding,
  handing out fresh connection identifiers; the claims under study do not
  concern driver-level connect failures.
* The `with DatabaseCursor(...)` exit protocol (`__exit__`) is modelled as a
  trace semantics `exitRun`: given whether the body raised and which driver
  calls fail, it returns the sequence of calls the handler performs and the
  exception (if any) the handler itself raises. `scopeOutcome` composes that
  with Python's `with`-statement rule: `__exit__` returns `None` (falsy), so a
  body exception propagates unless the handler raised one of its own.
-/

namespace DbHelper

/-- Python-level exceptions that the modelled code can raise. `driverError`
stands for an arbitrary psycopg2/driver exception escaping `commit`,
`rollback`, `close` or `execute`. -/
inductive PyErr where
  | keyError (field : String)
  | attributeError (msg : String)
  | typeError (msg : String)
  | runtimeError (msg : String)
  | poolError (msg : String)
  | driverError (msg : String)
deriving DecidableEq

/-- Transaction status of a live connection, as `conn.info.transaction_status`
reports it to `putconn` (psycopg2's `TRANSACTION_STATUS_*`). -/
inductive TxStatus where
  | idle
  | inTransaction
  | unknown
deriving DecidableEq

/-- Model of psycopg2's `SimpleConnectionPool` state. Connections are
identified by `Nat` handles; `pool` is the `_pool` list of idle connections in
Python list order (append at the end, `pop()` takes the last), `used` is the
`_used` dict as an association list `key ↦ connection`, `keys` the `_keys`
counter and `nextConn` the generator standing for `psycopg2.connect`. The
`_rused` reverse map of psycopg2 is kept in sync with `_used` there and is
recovered here by reverse lookup in `used`. -/
structure PGPool where
  minconn : Int
  maxconn : Int
  closed : Bool
  pool : List Nat
  used : List (Nat × Nat)
  keys : Nat
  nextConn : Nat
deriving DecidableEq

/-- `self._used[key]`, `None` when absent. -/
def usedGet (used : List (Nat × Nat)) (key : Nat) : Option Nat :=
  (used.find? (fun kv => kv.1 == key)).map (fun kv => kv.2)

/-- `self._rused.get(id(conn))`: the key a connection is checked out under. -/
def rusedGet (used : List (Nat × Nat)) (conn : Nat) : Option Nat :=
  (used.find? (fun kv => kv.2 == conn)).map (fun kv => kv.1)

/-- `del self._used[key]` (keys are unique: `_keys` only ever grows). -/
def usedDel (used : List (Nat × Nat)) (key : Nat) : List (Nat × Nat) :=
  used.filter (fun kv => !(kv.1 == key))

/-- `SimpleConnectionPool(minconn, maxconn, **kwargs)`: the constructor runs
`self._connect()` `minconn` times, each appending a fresh connection to
`_pool` (for negative `minconn`, `range` is empty). -/
def SimpleConnectionPool.create (minconn maxconn : Int) : PGPool :=
  { minconn := minconn
    maxconn := maxconn
    closed := false
    pool := List.range minconn.toNat
    used := []
    keys := 0
    nextConn := minconn.toNat }

/-- psycopg2 `AbstractConnectionPool._getconn` with `key=None` (what
`SimpleConnectionPool.getconn` calls): raise `PoolError` when closed; draw a
fresh key; hand back the last idle connection if any; otherwise connect a new
one unless `len(_used) == maxconn`, in which case raise `PoolError`
("connection pool exhausted"). The key counter increments before the
exhausted check, as in the source, and that mutation survives the raise. -/
def PGPool.getconn (p : PGPool) : Except PyErr Nat × PGPool :=
  if p.closed then
    (Except.error (PyErr.poolError "connection pool is closed"), p)
  else
    let key := p.keys + 1
    let p1 : PGPool := { p with keys := key }
    match usedGet p1.used key with
    | some conn => (Except.ok conn, p1)
    | none =>
      match p1.pool.getLast? with
      | some conn =>
        (Except.ok conn,
         { p1 with pool := p1.pool.dropLast, used := p1.used ++ [(key, conn)] })
      | none =>
        if (p1.used.length : Int) = p1.maxconn then
          (Except.error (PyErr.poolError "connection pool exhausted"), p1)
        else
          (Except.ok p1.nextConn,
           { p1 with nextConn := p1.nextConn + 1,
                     used := p1.used ++ [(key, p1.nextConn)] })

/-- psycopg2 `AbstractConnectionPool._putconn` with `key=None`, `close=False`:
raise `PoolError` when the pool is closed; raise `PoolError` ("trying to put
unkeyed connection") when the connection carries no key in `_rused` (it was
never checked out here, or was already put back); otherwise, when `_pool` is
below `minconn`, re-pool the connection unless it is closed or its transaction
status is unknown (then it is dropped; an in-transaction connection is rolled
back first), and in any case delete it from `_used`/`_rused`. The caller
supplies the connection object's observable state (`connClosed`, `status`);
side effects on the connection object itself (its `close`/`rollback`) are
outside the pool state. -/
def PGPool.putconn (p : PGPool) (conn : Nat) (connClosed : Bool)
    (status : TxStatus) : Except PyErr Unit × PGPool :=
  if p.closed then
    (Except.error (PyErr.poolError "connection pool is closed"), p)
  else
    match rusedGet p.used conn with
    | none => (Except.error (PyErr.poolError "trying to put unkeyed connection"), p)
    | some key =>
      let p1 : PGPool :=
        if (p.pool.length : Int) < p.minconn then
          if !connClosed then
            match status with
            | TxStatus.unknown => p
            | TxStatus.inTransaction => { p with pool := p.pool ++ [conn] }
            | TxStatus.idle => { p with pool := p.pool ++ [conn] }
          else p
        else p
      (Except.ok (), { p1 with used := usedDel p1.used key })

/-- psycopg2 `AbstractConnectionPool._closeall`: raise `PoolError` when
already closed, otherwise close every connection (errors swallowed per
connection) and mark the pool closed. -/
def PGPool.closeall (p : PGPool) : Except PyErr Unit × PGPool :=
  if p.closed then
    (Except.error (PyErr.poolError "connection pool is closed"), p)
  else
    (Except.ok (), { p with closed := true })

/-- The keyword arguments `db.py` assembles for `psycopg2.connect`. `dbname`
is `self.dbname` verbatim, so it may be `None`: `initialize` never checks it. -/
structure ConnParams where
  port : String
  host : String
  dbname : Option String
  user : String
  password : String
deriving DecidableEq

/-- The `server['param']` dictionary: each access to a missing key raises
`KeyError`, hence `Option` fields. -/
structure ServerParam where
  port : Option String
  host : Option String
  user : Option String
  password : Option String
  minconn : Option Int
  maxconn : Option Int
deriving DecidableEq

/-- The `server` dictionary: `name` (used by `__repr__`) and `param`. -/
structure Server where
  name : String
  param : ServerParam
deriving DecidableEq

/-- The `Database` object of `db.py`. -/
structure Database where
  server : Option Server
  dbname : Option String
  params : Option (Int × Int × ConnParams)
  connection_pool : Option PGPool
  init : Bool
deriving DecidableEq

/-- `Database.__init__(server, dbname)`: no connection yet. -/
def Database.new (server : Option Server) (dbname : Option String) : Database :=
  { server := server
    dbname := dbname
    params := none
    connection_pool := none
    init := false }

/-- `Database.initialize` (named `initializeDb` here): read the required keys
out of `server['param']` in the source's evaluation order (port, host, user,
password for the connection dict, then minconn, maxconn) — a missing key
raises `KeyError` at that point — then build the `SimpleConnectionPool` and
set `init = True`. No bound on `minconn`/`maxconn` is ever checked. -/
def Database.initializeDb (db : Database) : Except PyErr Database :=
  match db.server with
  | none => Except.error (PyErr.typeError "NoneType object is not subscriptable")
  | some srv =>
    match srv.param.port with
    | none => Except.error (PyErr.keyError "port")
    | some port =>
      match srv.param.host with
      | none => Except.error (PyErr.keyError "host")
      | some host =>
        match srv.param.user with
        | none => Except.error (PyErr.keyError "user")
        | some user =>
          match srv.param.password with
          | none => Except.error (PyErr.keyError "password")
          | some password =>
            match srv.param.minconn with
            | none => Except.error (PyErr.keyError "minconn")
            | some min_connections =>
              match srv.param.maxconn with
              | none => Except.error (PyErr.keyError "maxconn")
              | some max_connections =>
                Except.ok { db with
                  params := some (min_connections, max_connections,
                    { port := port, host := host, dbname := db.dbname,
                      user := user, password := password }),
                  connection_pool :=
                    some (SimpleConnectionPool.create min_connections max_connections),
                  init := true }

/-- `Database.get_connection`: `return self.connection_pool.getconn()`. When
`connection_pool` is `None` (never initialized, or after
`close_all_connections`) the attribute access itself raises
`AttributeError`. -/
def Database.get_connection (db : Database) : Except PyErr Nat × Database :=
  match db.connection_pool with
  | none => (Except.error (PyErr.attributeError "NoneType object has no attribute getconn"), db)
  | some p =>
    let r := PGPool.getconn p
    (r.1, { db with connection_pool := some r.2 })

/-- `Database.return_connection`: `self.connection_pool.putconn(connection)`.
As in `get_connection`, a `None` pool raises `AttributeError`. The connection
object's observable state is passed through to the driver model. -/
def Database.return_connection (db : Database) (connection : Nat)
    (connClosed : Bool) (status : TxStatus) : Except PyErr Unit × Database :=
  match db.connection_pool with
  | none => (Except.error (PyErr.attributeError "NoneType object has no attribute putconn"), db)
  | some p =>
    let r := PGPool.putconn p connection connClosed status
    (r.1, { db with connection_pool := some r.2 })

/-- `Database.close_all_connections`: `closeall()` on the pool, then
`init = False` and `connection_pool = None`. A `None` pool raises
`AttributeError`; if `closeall` raises, the two assignments never run. -/
def Database.close_all_connections (db : Database) : Except PyErr Unit × Database :=
  match db.connection_pool with
  | none => (Except.error (PyErr.attributeError "NoneType object has no attribute closeall"), db)
  | some p =>
    let r := PGPool.closeall p
    match r.1 with
    | Except.error e => (Except.error e, { db with connection_pool := some r.2 })
    | Except.ok _ => (Except.ok (), { db with connection_pool := none, init := false })

/-- The `database` argument of `DatabaseCursor.__init__`: either an actual
`Database` instance or anything else (`None` included), which is all
`isinstance(database, Database)` distinguishes. -/
inductive DatabaseArg where
  | isDB (d : Database)
  | notDB
deriving DecidableEq

/-- The `server` argument: a dict or not (`isinstance(server, dict)`). -/
inductive ServerArg where
  | isDict (s : Server)
  | notDict
deriving DecidableEq

/-- The `dbname` argument: a str or not (`isinstance(dbname, str)`). -/
inductive DbnameArg where
  | isStr (s : String)
  | notStr
deriving DecidableEq

def ServerArg.toOption : ServerArg → Option Server
  | ServerArg.isDict s => some s
  | ServerArg.notDict => none

def DbnameArg.toOption : DbnameArg → Option String
  | DbnameArg.isStr s => some s
  | DbnameArg.notStr => none

/-- The `DatabaseCursor` object right after `__init__` (its `connection` and
`cursor` are set on `__enter__`). -/
structure DatabaseCursor where
  server : Option Server
  dbname : Option String
  database : Database
  connection_pool : Option PGPool
  connection : Option Nat
  cursor : Option Unit
deriving DecidableEq

/-- `DatabaseCursor.__init__(database, server, dbname)`: keep `server` and
`dbname`; if `database` is not a `Database`, build one from `server`/`dbname`
when they are a dict and a str, else raise
`RuntimeError("No parameters for unknown database")`; then, if the chosen
`Database` is not initialized, run `initialize` on it (whose own exceptions —
`KeyError`/`TypeError` — propagate); finally copy its `connection_pool`. -/
def DatabaseCursor.new (database : DatabaseArg) (server : ServerArg)
    (dbname : DbnameArg) : Except PyErr DatabaseCursor :=
  let mdb : Except PyErr Database :=
    match database with
    | DatabaseArg.isDB d => Except.ok d
    | DatabaseArg.notDB =>
      match server, dbname with
      | ServerArg.isDict s, DbnameArg.isStr n => Except.ok (Database.new (some s) (some n))
      | _, _ => Except.error (PyErr.runtimeError "No parameters for unknown database")
  match mdb with
  | Except.error e => Except.error e
  | Except.ok db0 =>
    match (if db0.init then Except.ok db0 else Database.initializeDb db0) with
    | Except.error e => Except.error e
    | Except.ok db =>
      Except.ok { server := ServerArg.toOption server
                  dbname := DbnameArg.toOption dbname
                  database := db
                  connection_pool := db.connection_pool
                  connection := none
                  cursor := none }

/-- The calls `DatabaseCursor.__exit__` can make, in trace order:
`print(exc_type)`, `print(exc_val)`, `self.connection.rollback()`,
`self.cursor.close()`, `self.connection.commit()`,
`self.return_connection(self.connection)`. -/
inductive Ev where
  | printType
  | printVal
  | rollbackCall
  | cursorCloseCall
  | commitCall
  | returnConnCall
deriving DecidableEq

/-- Which of the driver calls made inside `__exit__` raise, and with what.
`none` means the call succeeds. -/
structure ExitBehavior where
  rollbackErr : Option PyErr
  closeErr : Option PyErr
  commitErr : Option PyErr
  returnErr : Option PyErr
deriving DecidableEq

/-- Trace semantics of `DatabaseCursor.__exit__`: `exc` is the body's pending
exception (`exc_val`), `b` says which driver calls fail. Returns the calls
actually performed, in order, and the exception the handler itself raises
(`none` when it returns normally). The source has no `try`/`finally`: a call
that raises aborts the handler at that point, so nothing after it runs. -/
def exitRun (exc : Option PyErr) (b : ExitBehavior) : List Ev × Option PyErr :=
  match exc with
  | some _ =>
    match b.rollbackErr with
    | some e => ([Ev.printType, Ev.printVal, Ev.rollbackCall], some e)
    | none =>
      match b.returnErr with
      | some e => ([Ev.printType, Ev.printVal, Ev.rollbackCall, Ev.returnConnCall], some e)
      | none => ([Ev.printType, Ev.printVal, Ev.rollbackCall, Ev.returnConnCall], none)
  | none =>
    match b.closeErr with
    | some e => ([Ev.cursorCloseCall], some e)
    | none =>
      match b.commitErr with
      | some e => ([Ev.cursorCloseCall, Ev.commitCall], some e)
      | none =>
        match b.returnErr with
        | some e => ([Ev.cursorCloseCall, Ev.commitCall, Ev.returnConnCall], some e)
        | none => ([Ev.cursorCloseCall, Ev.commitCall, Ev.returnConnCall], none)

/-- What the caller of the `with` block observes. -/
inductive ScopeOutcome where
  | ok
  | bodyExc (e : PyErr)
  | exitExc (e : PyErr)
deriving DecidableEq

/-- Python's `with`-statement rule composed with `exitRun`: `__exit__` ends in
`self.return_connection(...)` whose value (`None`, falsy) is the handler's
return value, so a pending body exception is re-raised unless the handler
itself raised, in which case the handler's exception propagates instead. -/
def scopeOutcome (exc : Option PyErr) (b : ExitBehavior) : ScopeOutcome :=
  match (exitRun exc b).2 with
  | some e2 => ScopeOutcome.exitExc e2
  | none =>
    match exc with
    | some e => ScopeOutcome.bodyExc e
    | none => ScopeOutcome.ok

/-! ## Sample inputs used by witnesses and counterexamples -/

/-- A `server['param']` dict, all keys present. -/
def mkParam (port host user password : Option String) (minc maxc : Option Int) :
    ServerParam :=
  { port := port, host := host, user := user, password := password,
    minconn := minc, maxconn := maxc }

/-- A `Database` built as `Database(server, dbname)` from the given params. -/
def mkDb (p : ServerParam) (dbn : Option String) : Database :=
  Database.new (some { name := "srv", param := p }) dbn

/-- A fully populated configuration with `minconn = 1`, `maxconn = 2`. -/
def sampleDb : Database :=
  mkDb (mkParam (some "5432") (some "127.0.0.1") (some "u") (some "pw")
    (some 1) (some 2)) (some "mydb")

/-- `sampleDb` after a successful `initialize`. -/
def sampleDbInit : Database :=
  match Database.initializeDb sampleDb with
  | Except.ok db => db
  | Except.error _ => sampleDb

/-- An `ExitBehavior` in which every driver call succeeds. -/
def allOk : ExitBehavior :=
  { rollbackErr := none, closeErr := none, commitErr := none, returnErr := none }

/-! ## Theorems for the claims -/

/-- **C1.** The claim says a `DatabaseCursor` scope releases its connection
exactly once on every exit path, even when `commit` (or `rollback`) itself
fails, surfacing a commit failure as `TransactionError`. The code has no
`try`/`finally` in `__exit__`: when `connection.commit()` raises, the handler
aborts before `self.return_connection(self.connection)`, so the connection is
never returned (it is leaked), and the raw driver exception — there is no
`TransactionError` type anywhere in the code — propagates. The same leak
happens when `rollback` raises on the failure path. -/
theorem exit_commit_failure_leaks_connection :
    ((exitRun none
        { rollbackErr := none, closeErr := none,
          commitErr := some (PyErr.driverError "commit failed"), returnErr := none }).1.count
      Ev.returnConnCall = 0
      ∧ (exitRun none
          { rollbackErr := none, closeErr := none,
            commitErr := some (PyErr.driverError "commit failed"), returnErr := none }).2
        = some (PyErr.driverError "commit failed"))
    ∧ (exitRun (some (PyErr.driverError "bad statement"))
        { rollbackErr := some (PyErr.driverError "rollback failed"), closeErr := none,
          commitErr := none, returnErr := none }).1.count Ev.returnConnCall = 0 := by
  decide

/-- **C2.** When the body completed without a pending exception and the driver
calls succeed, `__exit__` performs exactly `cursor.close()`, then
`connection.commit()`, then `return_connection(connection)`, in that order,
and raises nothing. -/
theorem exit_success_order (b : ExitBehavior) (hclose : b.closeErr = none)
    (hcommit : b.commitErr = none) (hret : b.returnErr = none) :
    exitRun none b = ([Ev.cursorCloseCall, Ev.commitCall, Ev.returnConnCall], none) := by
  cases b
  simp only at hclose hcommit hret
  subst hclose hcommit hret
  rfl

theorem exit_success_order_witness :
    exitRun none allOk = ([Ev.cursorCloseCall, Ev.commitCall, Ev.returnConnCall], none) :=
  exit_success_order allOk rfl rfl rfl

/-- **C3.** When the body raised and the driver calls made on this path
succeed, `__exit__` prints the exception, rolls the transaction back and
returns the connection — never calling `commit`, on this path under any
driver behavior — and the original body exception propagates to the caller
(`__exit__` returns a falsy value, so cleanup does not swallow it). -/
theorem exit_failure_rolls_back_and_propagates (e : PyErr) (b : ExitBehavior)
    (hroll : b.rollbackErr = none) (hret : b.returnErr = none) :
    exitRun (some e) b
        = ([Ev.printType, Ev.printVal, Ev.rollbackCall, Ev.returnConnCall], none)
      ∧ scopeOutcome (some e) b = ScopeOutcome.bodyExc e
      ∧ ∀ bAny : ExitBehavior, Ev.commitCall ∉ (exitRun (some e) bAny).1 := by
  refine ⟨?_, ?_, ?_⟩
  · cases b
    simp only at hroll hret
    subst hroll hret
    rfl
  · cases b
    simp only at hroll hret
    subst hroll hret
    rfl
  · intro bAny
    obtain ⟨r, c, m, ret⟩ := bAny
    cases r <;> cases ret <;> simp [exitRun]

theorem exit_failure_witness :
    exitRun (some (PyErr.driverError "boom")) allOk
        = ([Ev.printType, Ev.printVal, Ev.rollbackCall, Ev.returnConnCall], none)
      ∧ scopeOutcome (some (PyErr.driverError "boom")) allOk
        = ScopeOutcome.bodyExc (PyErr.driverError "boom") :=
  ⟨(exit_failure_rolls_back_and_propagates (PyErr.driverError "boom") allOk rfl rfl).1,
   (exit_failure_rolls_back_and_propagates (PyErr.driverError "boom") allOk rfl rfl).2.1⟩

/-- **C9.** On the failure exit path (`exc_val is not None`) the cursor is
never closed — `cursor.close()` appears only in the success branch — so under
whatever driver behavior no `cursorCloseCall` occurs, and when `rollback`
succeeds the connection is returned to the pool (with its cursor still
open, since no close ever happened in the trace). -/
theorem exit_failure_never_closes_cursor (e : PyErr) (b : ExitBehavior) :
    Ev.cursorCloseCall ∉ (exitRun (some e) b).1
      ∧ (b.rollbackErr = none → Ev.returnConnCall ∈ (exitRun (some e) b).1) := by
  obtain ⟨r, c, m, ret⟩ := b
  constructor
  · cases r <;> cases ret <;> simp [exitRun]
  · intro hr
    simp only at hr
    subst hr
    cases ret <;> simp [exitRun]

/-- `Except.ok`-ness, for stating that an operation did not raise. -/
def isOkE {α : Type} : Except PyErr α → Bool
  | Except.ok _ => true
  | Except.error _ => false

/-- **C4.** For a configuration with every required key present and
`0 ≤ min ≤ max`, `Database.initialize` succeeds, installs a pool holding
exactly `min` connections, all idle (`used` empty), not closed, and marks the
database initialized — all before any `get_connection` call. -/
theorem initialize_establishes_min_idle (port host user password dbn : String)
    (minc maxc : Int) (hmin : 0 ≤ minc) (_hmax : minc ≤ maxc) :
    Database.initializeDb
        (mkDb (mkParam (some port) (some host) (some user) (some password)
          (some minc) (some maxc)) (some dbn))
      = Except.ok { mkDb (mkParam (some port) (some host) (some user) (some password)
            (some minc) (some maxc)) (some dbn) with
          params := some (minc, maxc,
            { port := port, host := host, dbname := some dbn,
              user := user, password := password }),
          connection_pool := some (SimpleConnectionPool.create minc maxc),
          init := true }
      ∧ ((SimpleConnectionPool.create minc maxc).pool.length : Int) = minc
      ∧ (SimpleConnectionPool.create minc maxc).used = []
      ∧ (SimpleConnectionPool.create minc maxc).closed = false := by
  refine ⟨rfl, ?_, rfl, rfl⟩
  simp [SimpleConnectionPool.create, Int.toNat_of_nonneg hmin]

theorem initialize_establishes_min_idle_witness :
    Database.initializeDb
        (mkDb (mkParam (some "5432") (some "127.0.0.1") (some "u") (some "pw")
          (some 2) (some 5)) (some "mydb"))
      = Except.ok { mkDb (mkParam (some "5432") (some "127.0.0.1") (some "u") (some "pw")
            (some 2) (some 5)) (some "mydb") with
          params := some (2, 5,
            { port := "5432", host := "127.0.0.1", dbname := some "mydb",
              user := "u", password := "pw" }),
          connection_pool := some (SimpleConnectionPool.create 2 5),
          init := true }
      ∧ ((SimpleConnectionPool.create 2 5).pool.length : Int) = 2
      ∧ (SimpleConnectionPool.create 2 5).used = []
      ∧ (SimpleConnectionPool.create 2 5).closed = false :=
  initialize_establishes_min_idle "5432" "127.0.0.1" "u" "pw" "mydb" 2 5
    (by decide) (by decide)

/-- **C7, counterexample.** The claim says pool creation fails with
`ConfigurationError` whenever `min > max`. With `min = 3 > 1 = max` and every
required key present, `initialize` does not fail at all: it succeeds and
builds a pool of 3 connections. -/
theorem initialize_no_bound_check_counterexample :
    isOkE (Database.initializeDb
        (mkDb (mkParam (some "5432") (some "127.0.0.1") (some "u") (some "pw")
          (some 3) (some 1)) (some "mydb"))) = true
      ∧ ((SimpleConnectionPool.create 3 1).pool.length : Int) = 3 := by
  decide

/-- **C7, amended.** `Database.initialize` performs no validation of the pool
bounds: with all required keys present it succeeds for every `min` and `max`
(including `min > max` and `min < 0`). A missing required key in
`server['param']` (port, host, user, password, minconn, maxconn) raises a
`KeyError` naming that key — not a `ConfigurationError`, which does not exist
in the code — and a missing database name is not detected at all. -/
theorem initialize_validation_behavior (port host user password dbn : String)
    (minc maxc : Int) :
    isOkE (Database.initializeDb
        (mkDb (mkParam (some port) (some host) (some user) (some password)
          (some minc) (some maxc)) (some dbn))) = true
      ∧ Database.initializeDb
          (mkDb (mkParam none (some host) (some user) (some password)
            (some minc) (some maxc)) (some dbn))
        = Except.error (PyErr.keyError "port")
      ∧ Database.initializeDb
          (mkDb (mkParam (some port) none (some user) (some password)
            (some minc) (some maxc)) (some dbn))
        = Except.error (PyErr.keyError "host")
      ∧ Database.initializeDb
          (mkDb (mkParam (some port) (some host) none (some password)
            (some minc) (some maxc)) (some dbn))
        = Except.error (PyErr.keyError "user")
      ∧ Database.initializeDb
          (mkDb (mkParam (some port) (some host) (some user) none
            (some minc) (some maxc)) (some dbn))
        = Except.error (PyErr.keyError "password")
      ∧ Database.initializeDb
          (mkDb (mkParam (some port) (some host) (some user) (some password)
            none (some maxc)) (some dbn))
        = Except.error (PyErr.keyError "minconn")
      ∧ Database.initializeDb
          (mkDb (mkParam (some port) (some host) (some user) (some password)
            (some minc) none) (some dbn))
        = Except.error (PyErr.keyError "maxconn")
      ∧ isOkE (Database.initializeDb
          (mkDb (mkParam (some port) (some host) (some user) (some password)
            (some minc) (some maxc)) none)) = true :=
  ⟨rfl, rfl, rfl, rfl, rfl, rfl, rfl, rfl⟩

/-- **C5, counterexample.** The claim says acquisition after shutdown fails
with `PoolClosedError`. After `close_all_connections` on an initialized
database, `get_connection` instead raises `AttributeError` (the
`connection_pool` attribute was set to `None`), not the driver's
"connection pool is closed" `PoolError` — no `PoolClosedError` type exists in
the code. -/
theorem acquire_after_shutdown_counterexample :
    (Database.get_connection (Database.close_all_connections sampleDbInit).2).1
        = Except.error (PyErr.attributeError "NoneType object has no attribute getconn")
      ∧ (Database.get_connection (Database.close_all_connections sampleDbInit).2).1
        ≠ Except.error (PyErr.poolError "connection pool is closed") := by
  have h : (Database.get_connection (Database.close_all_connections sampleDbInit).2).1
      = Except.error (PyErr.attributeError "NoneType object has no attribute getconn") := rfl
  refine ⟨h, ?_⟩
  rw [h]
  intro hc
  exact PyErr.noConfusion (Except.error.inj hc)

/-- **C5, amended.** After a successful `close_all_connections`, every
subsequent `get_connection` fails — raising an `AttributeError`, because the
pool reference was cleared to `None` — rather than returning a connection,
and it leaves the closed state unchanged (so all later acquisitions fail the
same way). -/
theorem acquire_after_shutdown_fails (db : Database)
    (h : (Database.close_all_connections db).1 = Except.ok ()) :
    Database.get_connection (Database.close_all_connections db).2
      = (Except.error (PyErr.attributeError "NoneType object has no attribute getconn"),
         (Database.close_all_connections db).2) := by
  cases hcp : db.connection_pool with
  | none => simp [Database.close_all_connections, hcp] at h
  | some p =>
    by_cases hc : p.closed
    · simp [Database.close_all_connections, hcp, PGPool.closeall, hc] at h
    · simp [Database.close_all_connections, hcp, PGPool.closeall, hc,
        Database.get_connection]

theorem acquire_after_shutdown_fails_witness :
    (Database.close_all_connections sampleDbInit).1 = Except.ok ()
      ∧ Database.get_connection (Database.close_all_connections sampleDbInit).2
        = (Except.error (PyErr.attributeError "NoneType object has no attribute getconn"),
           (Database.close_all_connections sampleDbInit).2) :=
  ⟨rfl, acquire_after_shutdown_fails sampleDbInit rfl⟩

/-- **C8, counterexample.** The claim says a second shutdown does not fault.
On an initialized database, `close_all_connections` succeeds once, and the
second call raises `AttributeError`: the first call set `connection_pool` to
`None`, and `None.closeall()` is an attribute error. -/
theorem shutdown_idempotent_counterexample :
    (Database.close_all_connections sampleDbInit).1 = Except.ok ()
      ∧ (Database.close_all_connections
          (Database.close_all_connections sampleDbInit).2).1
        = Except.error (PyErr.attributeError "NoneType object has no attribute closeall") := by
  constructor <;> rfl

/-- **C8, amended.** Shutdown is not idempotent: after any successful
`close_all_connections`, the database is in the closed state (`init = false`,
`connection_pool = None`), and a second call faults with an `AttributeError`
on the `None` pool reference, leaving that closed state unchanged. -/
theorem shutdown_second_call_faults (db : Database)
    (h : (Database.close_all_connections db).1 = Except.ok ()) :
    (Database.close_all_connections db).2.init = false
      ∧ (Database.close_all_connections db).2.connection_pool = none
      ∧ Database.close_all_connections (Database.close_all_connections db).2
        = (Except.error (PyErr.attributeError "NoneType object has no attribute closeall"),
           (Database.close_all_connections db).2) := by
  cases hcp : db.connection_pool with
  | none => simp [Database.close_all_connections, hcp] at h
  | some p =>
    by_cases hc : p.closed
    · simp [Database.close_all_connections, hcp, PGPool.closeall, hc] at h
    · refine ⟨?_, ?_, ?_⟩ <;>
        simp [Database.close_all_connections, hcp, PGPool.closeall, hc]

theorem shutdown_second_call_faults_witness :
    (Database.close_all_connections sampleDbInit).1 = Except.ok ()
      ∧ (Database.close_all_connections sampleDbInit).2.init = false
      ∧ (Database.close_all_connections sampleDbInit).2.connection_pool = none
      ∧ Database.close_all_connections (Database.close_all_connections sampleDbInit).2
        = (Except.error (PyErr.attributeError "NoneType object has no attribute closeall"),
           (Database.close_all_connections sampleDbInit).2) :=
  ⟨rfl, (shutdown_second_call_faults sampleDbInit rfl).1,
    (shutdown_second_call_faults sampleDbInit rfl).2.1,
    (shutdown_second_call_faults sampleDbInit rfl).2.2⟩

/-- **C6.** Returning a connection that does not belong to the (open) pool or
was already returned — either way it carries no key in the pool's reverse map
— fails with the driver's `PoolError` for exactly this condition ("trying to
put unkeyed connection", the code's `InvalidConnectionError`), and leaves the
whole database state, in particular the idle/in-use/total counts, unchanged. -/
theorem return_foreign_connection_fails (db : Database) (p : PGPool) (conn : Nat)
    (connClosed : Bool) (status : TxStatus)
    (hp : db.connection_pool = some p) (hopen : p.closed = false)
    (hforeign : rusedGet p.used conn = none) :
    Database.return_connection db conn connClosed status
      = (Except.error (PyErr.poolError "trying to put unkeyed connection"), db) := by
  cases db
  simp only at hp
  subst hp
  simp [Database.return_connection, PGPool.putconn, hopen, hforeign]

theorem return_foreign_connection_fails_witness :
    Database.return_connection sampleDbInit 99 false TxStatus.idle
      = (Except.error (PyErr.poolError "trying to put unkeyed connection"), sampleDbInit) :=
  return_foreign_connection_fails sampleDbInit (SimpleConnectionPool.create 1 2) 99
    false TxStatus.idle rfl rfl rfl

/-- Did the operation raise a `RuntimeError`? -/
def isRuntimeErr {α : Type} : Except PyErr α → Bool
  | Except.error (PyErr.runtimeError _) => true
  | _ => false

/-- The `Database` invariant every value reachable through the class API
satisfies: whenever `init` is `True`, a connection pool is present
(`initialize` sets both together; `close_all_connections` clears both
together). -/
def Database.wfb (db : Database) : Bool :=
  !db.init || db.connection_pool.isSome

/-- The invariant lifted to the `database` argument of the constructor. -/
def DatabaseArg.wfArg : DatabaseArg → Bool
  | DatabaseArg.isDB d => Database.wfb d
  | DatabaseArg.notDB => true

/-- `isinstance(database, Database)` as the constructor tests it. -/
def DatabaseArg.isDatabase : DatabaseArg → Bool
  | DatabaseArg.isDB _ => true
  | DatabaseArg.notDB => false

/-- `isinstance(server, dict)`. -/
def ServerArg.isDictB : ServerArg → Bool
  | ServerArg.isDict _ => true
  | ServerArg.notDict => false

/-- `isinstance(dbname, str)`. -/
def DbnameArg.isStrB : DbnameArg → Bool
  | DbnameArg.isStr _ => true
  | DbnameArg.notStr => false

/-- When the constructor returned a cursor (did not raise), its `Database` is
initialized with a pool in place; vacuously true on a raise. -/
def initOkAfter : Except PyErr DatabaseCursor → Bool
  | Except.ok c => c.database.init && c.database.connection_pool.isSome
  | Except.error _ => true

/-- `Database.initialize` never raises `RuntimeError` (its failures are
`KeyError`/`TypeError`), and whenever it succeeds it leaves `init = True`
with a pool installed. -/
theorem initializeDb_cases (db : Database) :
    (∀ msg, Database.initializeDb db ≠ Except.error (PyErr.runtimeError msg))
      ∧ ∀ db1, Database.initializeDb db = Except.ok db1 →
          db1.init = true ∧ db1.connection_pool.isSome = true := by
  obtain ⟨srvO, dbn, prm, pl, ini⟩ := db
  cases srvO with
  | none =>
    refine ⟨fun msg h => ?_, fun db1 h => ?_⟩
    · exact PyErr.noConfusion (Except.error.inj h)
    · exact Except.noConfusion h
  | some srv =>
    obtain ⟨nm, po, ho, us, pw, mi, ma⟩ := srv
    cases po <;> cases ho <;> cases us <;> cases pw <;> cases mi <;> cases ma <;>
      refine ⟨fun msg h => ?_, fun db1 h => ?_⟩ <;>
      first
        | exact Except.noConfusion h
        | exact PyErr.noConfusion (Except.error.inj h)
        | (injection h with h2; subst h2; exact ⟨rfl, rfl⟩)

/-- **C10.** `DatabaseCursor.__init__` raises `RuntimeError` exactly when the
`database` argument is not a `Database` instance and, additionally, `server`
is not a dict or `dbname` is not a str; and whenever it does not raise at
all, the cursor it returns holds a `Database` with `init = True` and a
connection pool in place (given that a `Database` passed in satisfies the
class invariant `wfb`). -/
theorem cursor_constructor_contract (database : DatabaseArg) (server : ServerArg)
    (dbname : DbnameArg) (hwf : DatabaseArg.wfArg database = true) :
    isRuntimeErr (DatabaseCursor.new database server dbname)
        = (!DatabaseArg.isDatabase database
            && !(ServerArg.isDictB server && DbnameArg.isStrB dbname))
      ∧ initOkAfter (DatabaseCursor.new database server dbname) = true := by
  cases database with
  | isDB d =>
    simp only [DatabaseArg.wfArg, Database.wfb, Bool.or_eq_true, Bool.not_eq_true'] at hwf
    by_cases hi : d.init = true
    · have hpool : d.connection_pool.isSome = true := by
        cases hwf with
        | inl h => rw [hi] at h; exact absurd h (by simp)
        | inr h => exact h
      constructor
      · simp [DatabaseCursor.new, hi, isRuntimeErr, DatabaseArg.isDatabase]
      · simp [DatabaseCursor.new, hi, initOkAfter, hpool]
    · cases hIdb : Database.initializeDb d with
      | error e =>
        have hres : DatabaseCursor.new (DatabaseArg.isDB d) server dbname
            = Except.error e := by
          simp [DatabaseCursor.new, hi, hIdb]
        have hne : ∀ msg, e ≠ PyErr.runtimeError msg := by
          intro msg hmsg
          exact (initializeDb_cases d).1 msg (hmsg ▸ hIdb)
        refine ⟨?_, ?_⟩
        · rw [hres]
          cases e with
          | keyError f => rfl
          | attributeError m => rfl
          | typeError m => rfl
          | runtimeError m => exact absurd rfl (hne m)
          | poolError m => rfl
          | driverError m => rfl
        · rw [hres]; rfl
      | ok db1 =>
        have h2 := (initializeDb_cases d).2 db1 hIdb
        constructor
        · simp [DatabaseCursor.new, hi, hIdb, isRuntimeErr, DatabaseArg.isDatabase]
        · simp [DatabaseCursor.new, hi, hIdb, initOkAfter, h2.1, h2.2]
  | notDB =>
    cases server with
    | isDict s =>
      cases dbname with
      | isStr n =>
        have hini : (Database.new (some s) (some n)).init = true ↔ False := by
          simp [Database.new]
        cases hIdb : Database.initializeDb (Database.new (some s) (some n)) with
        | error e =>
          have hres : DatabaseCursor.new DatabaseArg.notDB (ServerArg.isDict s)
              (DbnameArg.isStr n) = Except.error e := by
            simp [DatabaseCursor.new, hini, hIdb]
          have hne : ∀ msg, e ≠ PyErr.runtimeError msg := by
            intro msg hmsg
            exact (initializeDb_cases (Database.new (some s) (some n))).1 msg (hmsg ▸ hIdb)
          refine ⟨?_, ?_⟩
          · rw [hres]
            cases e with
            | keyError f => rfl
            | attributeError m => rfl
            | typeError m => rfl
            | runtimeError m => exact absurd rfl (hne m)
            | poolError m => rfl
            | driverError m => rfl
          · rw [hres]; rfl
        | ok db1 =>
          have h2 := (initializeDb_cases (Database.new (some s) (some n))).2 db1 hIdb
          constructor
          · simp [DatabaseCursor.new, hini, hIdb, isRuntimeErr, DatabaseArg.isDatabase,
              ServerArg.isDictB, DbnameArg.isStrB]
          · simp [DatabaseCursor.new, hini, hIdb, initOkAfter, h2.1, h2.2]
      | notStr =>
        constructor
        · simp [DatabaseCursor.new, isRuntimeErr, DatabaseArg.isDatabase,
            ServerArg.isDictB, DbnameArg.isStrB]
        · simp [DatabaseCursor.new, initOkAfter]
    | notDict =>
      cases dbname <;> constructor <;>
        simp [DatabaseCursor.new, isRuntimeErr, initOkAfter, DatabaseArg.isDatabase,
          ServerArg.isDictB, DbnameArg.isStrB]

theorem cursor_constructor_contract_witness :
    DatabaseArg.wfArg (DatabaseArg.isDB sampleDbInit) = true
      ∧ isRuntimeErr (DatabaseCursor.new (DatabaseArg.isDB sampleDbInit)
          ServerArg.notDict DbnameArg.notStr)
        = (!DatabaseArg.isDatabase (DatabaseArg.isDB sampleDbInit)
            && !(ServerArg.isDictB ServerArg.notDict && DbnameArg.isStrB DbnameArg.notStr))
      ∧ initOkAfter (DatabaseCursor.new (DatabaseArg.isDB sampleDbInit)
          ServerArg.notDict DbnameArg.notStr) = true :=
  ⟨rfl,
   (cursor_constructor_contract (DatabaseArg.isDB sampleDbInit)
      ServerArg.notDict DbnameArg.notStr rfl).1,
   (cursor_constructor_contract (DatabaseArg.isDB sampleDbInit)
      ServerArg.notDict DbnameArg.notStr rfl).2⟩

end DbHelper
